import Mathlib

/-!
Shallow embedding of the core of `nvmonitor.py` (GPU throttle monitor):
the bitmask-to-diagnosis translation, the per-tick throttle-history update,
the layout selection, the compact-mode problem codes, the status-line
colouring, the CSV mask field, the end-of-run summary, and the sampling
loop's failure behaviour.  Metric values that the embedded core never
computes with (power, temperature) are carried as rationals; the reason
mask is a natural number (the source treats it as an unsigned 64-bit
bitfield and only ever masks it with small constants).
-/

namespace NVMonitor

/-- One sample of one device, the tuple returned by `Backend.sample`:
`(power_watts, sm_clock_mhz, util_gpu_percent, reasons_mask, temp_c)`. -/
structure Snapshot where
  power_w : ℚ
  sm_mhz : Nat
  util : Nat
  mask : Nat
  temp_c : ℚ

/-- Line 249 of `nvmonitor.py`: `is_throttled = 1 if (mask & 0x00E8) else 0`.
This is the flag appended to the device's history deque each tick. -/
def is_throttled (mask : Nat) : Nat :=
  if mask &&& 0x00E8 != 0 then 1 else 0

/-- The problem strings accumulated by `get_problem_description`
(lines 215-233), one `if` per recognized bit, in source order. -/
def problemList (mask : Nat) : List String :=
  (if mask &&& 0x0080 != 0 then ["POWER LIMIT: GPU wants more power but is limited by power delivery"] else [])
  ++ (if mask &&& 0x0040 != 0 then ["OVERHEATING: Hardware thermal protection activated"] else [])
  ++ (if mask &&& 0x0020 != 0 then ["HOT: Driver thermal throttling"] else [])
  ++ (if mask &&& 0x0004 != 0 then ["CAPPED: Software power limit reached"] else [])
  ++ (if mask &&& 0x0008 != 0 then ["THROTTLED: General hardware slowdown"] else [])

/-- `GPUMonitor.get_problem_description`: join the accumulated problems with
`" | "`, or return the OK string when none matched. -/
def get_problem_description (mask : Nat) : String :=
  if (problemList mask).isEmpty then "OK: No throttling"
  else String.intercalate " | " (problemList mask)

/-- The fixed (bit, message) table behind `get_problem_description`,
in the order the source checks the bits. -/
def throttleConds : List (Nat × String) :=
  [(0x0080, "POWER LIMIT: GPU wants more power but is limited by power delivery"),
   (0x0040, "OVERHEATING: Hardware thermal protection activated"),
   (0x0020, "HOT: Driver thermal throttling"),
   (0x0004, "CAPPED: Software power limit reached"),
   (0x0008, "THROTTLED: General hardware slowdown")]

/-- One `collections.deque(maxlen=40)` append (line 196 / line 250):
push the new flag and keep only the most recent 40 entries. -/
def histAppend (h : List Nat) (v : Nat) : List Nat :=
  (h ++ [v]).drop ((h ++ [v]).length - 40)

/-- The history buffer obtained by appending every flag of `vs`, in order,
to an initially empty deque. -/
def histRun (vs : List Nat) : List Nat :=
  vs.foldl histAppend []

/-- Line 267: `needed_lines = len(self.gpu_indices) * 4 + 3`. -/
def needed_lines (deviceCount : Nat) : Nat :=
  deviceCount * 4 + 3

/-- Line 268: `compact_mode = self.term.height < needed_lines`. -/
def compact_mode (height deviceCount : Nat) : Bool :=
  height < needed_lines deviceCount

/-- The compact layout's abbreviated problem code (lines 296-303): an
`if`/`elif` chain appending at most one code to the device line. -/
def compact_code (mask : Nat) : Option String :=
  if mask &&& 0x0080 != 0 then some "PWR"
  else if mask &&& 0x0040 != 0 then some "THM"
  else if mask &&& 0x0020 != 0 then some "HOT"
  else if mask &&& 0x0004 != 0 then some "CAP"
  else none

/-- Boolean prefix test on character lists (needle, then haystack). -/
def isPre (needle hay : List Char) : Bool :=
  List.isPrefixOf needle hay

/-- Substring occurrence on character lists: the needle occurs at some
position of the haystack. -/
def hasSub (needle : List Char) : List Char → Bool
  | [] => needle.isEmpty
  | c :: rest => isPre needle (c :: rest) || hasSub needle rest

/-- Python's `needle in hay` on strings: substring containment. -/
def containsSub (needle hay : String) : Bool :=
  hasSub needle.toList hay.toList

/-- The colour applied to the per-device status line in the normal layout. -/
inductive StatusColor
  | green
  | red
  | yellow
  | plain
deriving DecidableEq

/-- Lines 344-352: the status line's colour is chosen by substring tests on
the full diagnosis text; the final `else` prints the text uncoloured. -/
def status_color (mask : Nat) : StatusColor :=
  if containsSub "OK:" (get_problem_description mask) then .green
  else if containsSub "POWER LIMIT" (get_problem_description mask)
       || containsSub "OVERHEATING" (get_problem_description mask) then .red
  else if containsSub "HOT" (get_problem_description mask)
       || containsSub "CAPPED" (get_problem_description mask) then .yellow
  else .plain

/-- Hexadecimal digit characters of `m`, most significant first, lowercase
(`Nat.digitChar` maps 10-15 to a-f), empty for `m = 0`. -/
def hexDigits (m : Nat) : List Char :=
  ((Nat.digits 16 m).map Nat.digitChar).reverse

/-- Line 259: the CSV mask field `f"0x{mask:016x}"` — `0x` followed by the
hex digits of the mask left-padded with `0` to width 16. -/
def mask_field (m : Nat) : String :=
  ⟨'0' :: 'x' :: (List.replicate (16 - (hexDigits m).length) '0' ++ hexDigits m)⟩

/-- Lowercase-hexadecimal-digit test for one character. -/
def isLowerHexDigit (c : Char) : Bool :=
  ('0' ≤ c && c ≤ '9') || ('a' ≤ c && c ≤ 'f')

/-- Numeric value of one lowercase hexadecimal digit character. -/
def hexCharVal (c : Char) : Nat :=
  if '0' ≤ c && c ≤ '9' then c.toNat - 48 else c.toNat - 87

/-- Numeric value of a most-significant-first string of hex digit chars. -/
def hexValue (cs : List Char) : Nat :=
  cs.foldl (fun a c => a * 16 + hexCharVal c) 0

/-- One remediation block printed by `show_summary` for one device. -/
inductive SummaryItem
  | powerBrake
  | thermalThrottling
  | swThermalLimit
  | powerCap
  | noProblems
deriving DecidableEq

/-- The per-bit remediation blocks of `show_summary` (lines 385-412), in
source order; note bit `0x0008` has no check here. -/
def summary_items (mask : Nat) : List SummaryItem :=
  (if mask &&& 0x0080 != 0 then [.powerBrake] else [])
  ++ (if mask &&& 0x0040 != 0 then [.thermalThrottling] else [])
  ++ (if mask &&& 0x0020 != 0 then [.swThermalLimit] else [])
  ++ (if mask &&& 0x0004 != 0 then [.powerCap] else [])

/-- Lines 414-416: when no block was printed (`problems_found` stayed
false), the single affirmative line is printed instead. -/
def device_summary (mask : Nat) : List SummaryItem :=
  if (summary_items mask).isEmpty then [.noProblems] else summary_items mask

/-- `GPUMonitor.show_summary` (lines 372-416) as a function of the final
re-sample: each device is re-sampled once inside `try`/`except`; a failing
device is skipped (`continue`) and produces no output at all, a successful
one contributes its summary blocks. -/
def show_summary (devs : List Nat) (sampler : Nat → Option Snapshot) :
    List (Nat × List SummaryItem) :=
  devs.filterMap fun i => (sampler i).map fun d => (i, device_summary d.mask)

/-- The sampling phase of `update_display` (lines 240-261): devices are
sampled sequentially; each successful sample is recorded in `per_gpu` and
its throttle flag is appended to that device's history deque.  There is no
`try`/`except` here: a failing `backend.sample(i)` raises out of the loop,
so the tick aborts at the failing device — earlier devices keep their
history appends (the deques were already mutated), later devices are never
sampled.  The error value carries the failing index and the histories as
mutated so far. -/
def collectTick (devs : List Nat) (sampler : Nat → Option Snapshot)
    (hists : Nat → List Nat) :
    Except (Nat × (Nat → List Nat)) (List (Nat × Snapshot) × (Nat → List Nat)) :=
  match devs with
  | [] => .ok ([], hists)
  | i :: rest =>
    match sampler i with
    | none => .error (i, hists)
    | some data =>
      match collectTick rest sampler
          (fun j => if j = i then histAppend (hists j) (is_throttled data.mask) else hists j) with
      | .ok (pg, h) => .ok ((i, data) :: pg, h)
      | .error e => .error e

/-- The `while` loop of `GPUMonitor.run` (lines 428-433) over a finite
schedule of ticks (one sampler per tick): each tick runs
`update_display`; an exception escaping a tick ends the loop — there is no
handler between `update_display` and the `finally` block. -/
def runLoop (ticks : List (Nat → Option Snapshot)) (devs : List Nat)
    (hists : Nat → List Nat) :
    Except (Nat × (Nat → List Nat)) (Nat → List Nat) :=
  match ticks with
  | [] => .ok hists
  | t :: rest =>
    match collectTick devs t hists with
    | .ok (_, h2) => runLoop rest devs h2
    | .error e => .error e

/-- Whether an `Except` result is a success. -/
def isOkE {ε α : Type} : Except ε α → Bool
  | .ok _ => true
  | .error _ => false

/-- A snapshot with all metrics zero, used for concrete instantiations. -/
def snapZero : Snapshot := ⟨0, 0, 0, 0, 0⟩

/-- A sampler that fails for device 0 and succeeds for every other device. -/
def tickFail0 : Nat → Option Snapshot :=
  fun i => if i = 0 then none else some snapZero

/-- A sampler that succeeds for every device. -/
def tickOk : Nat → Option Snapshot :=
  fun _ => some snapZero

/-- C2: the per-tick flag appended to the history buffer is 1 exactly when
`mask & 0x00E8` is nonzero; a mask with only the CAPPED bit `0x0004` set is
recorded as not throttled. -/
theorem throttled_flag_iff (m : Nat) :
    (is_throttled m = 1 ↔ m &&& 0x00E8 ≠ 0) ∧ is_throttled 0x0004 = 0 := by
  constructor
  · by_cases hc : m &&& 0x00E8 = 0 <;> simp [is_throttled, hc]
  · decide

/-- Witness for `throttled_flag_iff` at mask `0x00E8`. -/
theorem throttled_flag_iff_witness : is_throttled 0x00E8 = 1 :=
  (throttled_flag_iff 0x00E8).1.mpr (by decide)

/-- C3: the diagnosis lists exactly the messages of the bits set in the
mask, in the fixed source order of `throttleConds`; when none of the five
bits is set, the diagnosis is exactly the single OK message. -/
theorem diagnosis_bits_order (m : Nat) :
    problemList m = (throttleConds.filter fun c => m &&& c.1 != 0).map Prod.snd ∧
    (m &&& 0x0080 = 0 → m &&& 0x0040 = 0 → m &&& 0x0020 = 0 → m &&& 0x0004 = 0 →
      m &&& 0x0008 = 0 → get_problem_description m = "OK: No throttling") := by
  constructor
  · cases h80 : (m &&& 0x0080 != 0) <;> cases h40 : (m &&& 0x0040 != 0) <;>
      cases h20 : (m &&& 0x0020 != 0) <;> cases h04 : (m &&& 0x0004 != 0) <;>
      cases h08 : (m &&& 0x0008 != 0) <;>
      simp [problemList, throttleConds, h80, h40, h20, h04, h08]
  · intro h80 h40 h20 h04 h08
    simp [get_problem_description, problemList, h80, h40, h20, h04, h08]

/-- Witness for `diagnosis_bits_order` at mask 0. -/
theorem diagnosis_bits_order_witness : get_problem_description 0 = "OK: No throttling" :=
  (diagnosis_bits_order 0).2 (by decide) (by decide) (by decide) (by decide) (by decide)

/-- C5: the compact layout is selected exactly when the terminal height is
below `deviceCount * 4 + 3`. -/
theorem compact_mode_iff (height deviceCount : Nat) :
    compact_mode height deviceCount = true ↔ height < deviceCount * 4 + 3 := by
  simp [compact_mode, needed_lines]

/-- Witness for `compact_mode_iff`: height 10 with 2 devices is compact. -/
theorem compact_mode_iff_witness : compact_mode 10 2 = true :=
  (compact_mode_iff 10 2).mpr (by decide)

/-- C6: the compact layout's abbreviated code is chosen by first-match
priority PWR over THM over HOT over CAP, and is absent when none of those
four bits is set. -/
theorem compact_code_first_match (m : Nat) :
    (m &&& 0x0080 ≠ 0 → compact_code m = some "PWR") ∧
    (m &&& 0x0080 = 0 → m &&& 0x0040 ≠ 0 → compact_code m = some "THM") ∧
    (m &&& 0x0080 = 0 → m &&& 0x0040 = 0 → m &&& 0x0020 ≠ 0 →
      compact_code m = some "HOT") ∧
    (m &&& 0x0080 = 0 → m &&& 0x0040 = 0 → m &&& 0x0020 = 0 → m &&& 0x0004 ≠ 0 →
      compact_code m = some "CAP") ∧
    (m &&& 0x0080 = 0 → m &&& 0x0040 = 0 → m &&& 0x0020 = 0 → m &&& 0x0004 = 0 →
      compact_code m = none) := by
  refine ⟨fun h80 => ?_, fun h80 h40 => ?_, fun h80 h40 h20 => ?_,
    fun h80 h40 h20 h04 => ?_, fun h80 h40 h20 h04 => ?_⟩ <;>
    simp [compact_code, h80, *]

/-- Witness for `compact_code_first_match` at each priority level. -/
theorem compact_code_first_match_witness :
    compact_code 0x00C0 = some "PWR" ∧ compact_code 0x0040 = some "THM" ∧
    compact_code 0x0020 = some "HOT" ∧ compact_code 0x0004 = some "CAP" ∧
    compact_code 0x0008 = none :=
  ⟨(compact_code_first_match 0x00C0).1 (by decide),
   (compact_code_first_match 0x0040).2.1 (by decide) (by decide),
   (compact_code_first_match 0x0020).2.2.1 (by decide) (by decide) (by decide),
   (compact_code_first_match 0x0004).2.2.2.1 (by decide) (by decide) (by decide) (by decide),
   (compact_code_first_match 0x0008).2.2.2.2 (by decide) (by decide) (by decide) (by decide)⟩

/-- C9: in the end-of-run summary a device whose re-sample fails is skipped
without affecting the other devices, a device whose re-sample succeeds
contributes its summary blocks, and a device whose mask sets none of the
four checked bits gets the single affirmative line. -/
theorem summary_skips_failures :
    (∀ (pre post : List Nat) (i : Nat) (sampler : Nat → Option Snapshot),
      sampler i = none →
      show_summary (pre ++ i :: post) sampler =
        show_summary pre sampler ++ show_summary post sampler) ∧
    (∀ (i : Nat) (sampler : Nat → Option Snapshot) (d : Snapshot),
      sampler i = some d →
      show_summary [i] sampler = [(i, device_summary d.mask)]) ∧
    (∀ m : Nat, m &&& 0x0080 = 0 → m &&& 0x0040 = 0 → m &&& 0x0020 = 0 →
      m &&& 0x0004 = 0 → device_summary m = [SummaryItem.noProblems]) := by
  refine ⟨?_, ?_, ?_⟩
  · intro pre post i sampler hi
    simp [show_summary, List.filterMap_append, hi]
  · intro i sampler d hd
    simp [show_summary, hd]
  · intro m h80 h40 h20 h04
    simp [device_summary, summary_items, h80, h40, h20, h04]

/-- Witness for `summary_skips_failures` with device 0 failing out of
devices 1, 0, 2. -/
theorem summary_skips_failures_witness :
    show_summary ([1] ++ 0 :: [2]) tickFail0 =
      show_summary [1] tickFail0 ++ show_summary [2] tickFail0 ∧
    show_summary [1] tickOk = [(1, device_summary snapZero.mask)] ∧
    device_summary 0 = [SummaryItem.noProblems] := by
  refine ⟨?_, ?_, ?_⟩
  · exact summary_skips_failures.1 [1] [2] 0 tickFail0 (by simp [tickFail0])
  · exact summary_skips_failures.2.1 1 tickOk snapZero rfl
  · exact summary_skips_failures.2.2 0 (by decide) (by decide) (by decide) (by decide)

/-- C10: a mask whose only recognized throttle bit is `0x0008` gets the
affirmative summary line, while the full diagnosis lists the THROTTLED
message and the history flag records it as throttled. -/
theorem summary_blind_to_hw_slowdown (m : Nat)
    (h80 : m &&& 0x0080 = 0) (h40 : m &&& 0x0040 = 0) (h20 : m &&& 0x0020 = 0)
    (h04 : m &&& 0x0004 = 0) (h08 : m &&& 0x0008 ≠ 0) :
    device_summary m = [SummaryItem.noProblems] ∧
    "THROTTLED: General hardware slowdown" ∈ problemList m ∧
    is_throttled m = 1 := by
  refine ⟨?_, ?_, ?_⟩
  · simp [device_summary, summary_items, h80, h40, h20, h04]
  · simp [problemList, h80, h40, h20, h04, h08]
  · have h8 : (0x00E8 : Nat) &&& 0x0008 = 0x0008 := by decide
    have hsub : m &&& 0x00E8 &&& 0x0008 = m &&& 0x0008 := by
      rw [Nat.and_assoc, h8]
    have hne : m &&& 0x00E8 ≠ 0 := by
      intro h0
      apply h08
      rw [← hsub, h0]
      decide
    simp [is_throttled, hne]

/-- Witness for `summary_blind_to_hw_slowdown` at mask `0x0008`. -/
theorem summary_blind_to_hw_slowdown_witness :
    device_summary 0x0008 = [SummaryItem.noProblems] ∧
    "THROTTLED: General hardware slowdown" ∈ problemList 0x0008 ∧
    is_throttled 0x0008 = 1 :=
  summary_blind_to_hw_slowdown 0x0008 (by decide) (by decide) (by decide)
    (by decide) (by decide)

/-- A deque append never grows the buffer past its capacity of 40. -/
lemma histAppend_length_le (h : List Nat) (v : Nat) : (histAppend h v).length ≤ 40 := by
  simp [histAppend]
  omega

/-- Folding deque appends over a buffer of length at most 40 keeps exactly
the most recent 40 entries of the combined sequence. -/
lemma foldl_histAppend : ∀ (vs h : List Nat), h.length ≤ 40 →
    List.foldl histAppend h vs = (h ++ vs).drop ((h ++ vs).length - 40)
  | [], h, hle => by
      simp only [List.foldl_nil, List.append_nil]
      have h0 : h.length - 40 = 0 := by omega
      rw [h0, List.drop_zero]
  | v :: vs, h, hle => by
      have hlen : (histAppend h v).length ≤ 40 := histAppend_length_le h v
      have ih := foldl_histAppend vs (histAppend h v) hlen
      simp only [List.foldl_cons]
      rw [ih]
      unfold histAppend
      have hk : (h ++ [v]).length - 40 ≤ (h ++ [v]).length := Nat.sub_le _ _
      rw [← List.drop_append_of_le_length hk, List.drop_drop, List.append_cons h v vs]
      congr 1
      simp only [List.length_append, List.length_drop, List.length_cons,
        List.length_singleton]
      omega

/-- C4: the history buffer never exceeds its capacity of 40, and after more
than 40 appends it holds exactly the most recent 40 flags in insertion
order. -/
theorem history_keeps_last_40 (vs : List Nat) :
    (histRun vs).length ≤ 40 ∧
    (40 < vs.length →
      histRun vs = vs.drop (vs.length - 40) ∧ (histRun vs).length = 40) := by
  have h := foldl_histAppend vs [] (by simp)
  simp only [List.nil_append] at h
  rw [histRun, h]
  refine ⟨?_, fun hgt => ⟨rfl, ?_⟩⟩
  · simp only [List.length_drop]
    omega
  · simp only [List.length_drop]
    omega

/-- Witness for `history_keeps_last_40` on a 41-entry flag sequence. -/
theorem history_keeps_last_40_witness :
    histRun (0 :: List.replicate 40 1) =
      (0 :: List.replicate 40 1).drop ((0 :: List.replicate 40 1).length - 40) :=
  ((history_keeps_last_40 (0 :: List.replicate 40 1)).2 (by simp)).1

/-- C7 counterexample: mask `0x0008` diagnoses only the WARNING condition
THROTTLED, yet the status line for it is printed uncoloured, while the
WARNING colour (used for HOT and CAPPED) is yellow.  So the status line is
not coloured by the worst severity present. -/
theorem throttled_only_status_uncolored :
    status_color 0x0008 = StatusColor.plain ∧
    status_color 0x0020 = StatusColor.yellow ∧
    status_color 0x0004 = StatusColor.yellow ∧
    status_color 0x0008 ≠ StatusColor.yellow := by decide

/-- The colour the source actually selects, as a function of the five
recognized bits: green for a clean mask, red when a CRITICAL bit is set,
yellow when HOT or CAPPED is set (and no CRITICAL bit), and otherwise no
colour at all — in particular a mask whose only recognized bit is
THROTTLED `0x0008` is rendered uncoloured. -/
def statusColorGrid (b80 b40 b20 b04 b08 : Bool) : StatusColor :=
  if !b80 && !b40 && !b20 && !b04 && !b08 then .green
  else if b80 || b40 then .red
  else if b20 || b04 then .yellow
  else .plain

/-- C7 amended: the status-line colour is green exactly on a clean mask,
red exactly when a CRITICAL bit (`0x0080` or `0x0040`) is set, yellow
exactly when HOT or CAPPED is set without a CRITICAL bit, and plain
(uncoloured) when the only recognized bit set is THROTTLED `0x0008`. -/
theorem status_color_characterization (m : Nat) :
    status_color m = statusColorGrid (m &&& 0x0080 != 0) (m &&& 0x0040 != 0)
      (m &&& 0x0020 != 0) (m &&& 0x0004 != 0) (m &&& 0x0008 != 0) := by
  cases h80 : (m &&& 0x0080 != 0) <;> cases h40 : (m &&& 0x0040 != 0) <;>
    cases h20 : (m &&& 0x0020 != 0) <;> cases h04 : (m &&& 0x0004 != 0) <;>
    cases h08 : (m &&& 0x0008 != 0) <;>
    simp [status_color, get_problem_description, problemList, statusColorGrid,
      h80, h40, h20, h04, h08] <;> decide

/-- When every watched device samples successfully, the tick completes. -/
lemma collectTick_ok_of_all_some (sampler : Nat → Option Snapshot) :
    ∀ (devs : List Nat) (hists : Nat → List Nat),
      (∀ i ∈ devs, (sampler i).isSome) →
      isOkE (collectTick devs sampler hists) = true
  | [], _, _ => rfl
  | i :: rest, hists, hall => by
      rcases hsi : sampler i with _ | d
      · have hi := hall i (by simp)
        rw [hsi] at hi
        simp at hi
      · have hrest := collectTick_ok_of_all_some sampler rest
          (fun j => if j = i then histAppend (hists j) (is_throttled d.mask) else hists j)
          (fun j hj => hall j (by simp [hj]))
        simp only [collectTick, hsi]
        rcases hrec : collectTick rest sampler
            (fun j => if j = i then histAppend (hists j) (is_throttled d.mask) else hists j)
            with e | ⟨pg, h2⟩
        · rw [hrec] at hrest
          simp [isOkE] at hrest
        · rfl

/-- When any watched device fails to sample, the tick aborts with an
error. -/
lemma collectTick_error_of_mem_none (sampler : Nat → Option Snapshot) :
    ∀ (devs : List Nat) (hists : Nat → List Nat) (i : Nat),
      i ∈ devs → sampler i = none →
      isOkE (collectTick devs sampler hists) = false
  | [], _, i, hi, _ => by simp at hi
  | j :: rest, hists, i, hi, hnone => by
      rcases hsj : sampler j with _ | d
      · rw [collectTick, hsj]
        rfl
      · have hir : i ∈ rest := by
          rcases List.mem_cons.mp hi with h | h
          · subst h
            rw [hsj] at hnone
            cases hnone
          · exact h
        have hrest := collectTick_error_of_mem_none sampler rest
          (fun k => if k = j then histAppend (hists k) (is_throttled d.mask) else hists k)
          i hir hnone
        simp only [collectTick, hsj]
        rcases hrec : collectTick rest sampler
            (fun k => if k = j then histAppend (hists k) (is_throttled d.mask) else hists k)
            with e | ⟨pg, h2⟩
        · rfl
        · rw [hrec] at hrest
          simp [isOkE] at hrest

/-- C1 counterexample: with devices 0 and 1, a schedule whose first tick
fails for device 0 and whose second tick would succeed everywhere, the run
does not continue — it ends in an error at the first failing sample instead
of skipping device 0 for that tick and proceeding. -/
theorem sample_failure_aborts_run :
    isOkE (runLoop [tickFail0, tickOk] [0, 1] fun _ => []) = false := rfl

/-- C1 amended: a per-tick sample failure is not recovered locally — a tick
in which every device samples successfully completes, but a tick in which
any device's sample fails aborts with an error, and the run loop then
terminates at that tick instead of continuing. -/
theorem tick_failure_not_recovered :
    (∀ (devs : List Nat) (sampler : Nat → Option Snapshot) (hists : Nat → List Nat),
      (∀ i ∈ devs, (sampler i).isSome) →
      isOkE (collectTick devs sampler hists) = true) ∧
    (∀ (devs : List Nat) (sampler : Nat → Option Snapshot) (hists : Nat → List Nat),
      (∃ i ∈ devs, sampler i = none) →
      isOkE (collectTick devs sampler hists) = false) ∧
    (∀ (devs : List Nat) (sampler : Nat → Option Snapshot)
      (rest : List (Nat → Option Snapshot)) (hists : Nat → List Nat),
      (∃ i ∈ devs, sampler i = none) →
      isOkE (runLoop (sampler :: rest) devs hists) = false) := by
  have herr : ∀ (devs : List Nat) (sampler : Nat → Option Snapshot)
      (hists : Nat → List Nat), (∃ i ∈ devs, sampler i = none) →
      isOkE (collectTick devs sampler hists) = false := by
    rintro devs sampler hists ⟨i, hi, hnone⟩
    exact collectTick_error_of_mem_none sampler devs hists i hi hnone
  refine ⟨fun devs sampler hists hall =>
    collectTick_ok_of_all_some sampler devs hists hall, herr, ?_⟩
  intro devs sampler rest hists hex
  have h := herr devs sampler hists hex
  rw [runLoop]
  rcases hrec : collectTick devs sampler hists with e | ⟨pg, h2⟩
  · rfl
  · rw [hrec] at h
    simp [isOkE] at h

/-- Witness for `tick_failure_not_recovered` on devices 0 and 1. -/
theorem tick_failure_not_recovered_witness :
    isOkE (collectTick [0, 1] tickOk fun _ => []) = true ∧
    isOkE (collectTick [0, 1] tickFail0 fun _ => []) = false ∧
    isOkE (runLoop [tickFail0, tickOk] [0, 1] fun _ => []) = false :=
  ⟨tick_failure_not_recovered.1 [0, 1] tickOk (fun _ => []) (fun _ _ => rfl),
   tick_failure_not_recovered.2.1 [0, 1] tickFail0 (fun _ => []) ⟨0, by simp, rfl⟩,
   tick_failure_not_recovered.2.2 [0, 1] tickFail0 [tickOk] (fun _ => []) ⟨0, by simp, rfl⟩⟩

/-- A mask below `2 ^ 64` has at most 16 base-16 digits. -/
lemma digits16_len_le (m : Nat) (hm : m < 2 ^ 64) : (Nat.digits 16 m).length ≤ 16 := by
  rcases eq_or_ne m 0 with h0 | h0
  · subst h0
    simp
  · have hm16 : m < 16 ^ 16 := by
      rw [show (16 : Nat) ^ 16 = 2 ^ 64 by norm_num]
      exact hm
    have hlog : Nat.log 16 m < 16 := Nat.log_lt_of_lt_pow h0 hm16
    rw [Nat.digits_len 16 m (by norm_num) h0]
    omega

/-- Every digit below 16 maps to a lowercase hexadecimal character. -/
lemma digitChar_hex : ∀ d < 16, isLowerHexDigit (Nat.digitChar d) = true := by decide

/-- The hex value of each digit character round-trips to the digit. -/
lemma hexCharVal_digitChar : ∀ d < 16, hexCharVal (Nat.digitChar d) = d := by decide

/-- Leading zero characters do not change the accumulated hex value 0. -/
lemma foldl_hex_replicate (n : Nat) :
    List.foldl (fun a c => a * 16 + hexCharVal c) 0 (List.replicate n '0') = 0 := by
  induction n with
  | zero => rfl
  | succ k ih =>
      rw [List.replicate_succ, List.foldl_cons]
      exact ih

/-- Folding the most-significant-first hex characters of a digit list
accumulates exactly its base-16 value. -/
lemma foldl_hex_digits : ∀ (ds : List Nat), (∀ d ∈ ds, d < 16) → ∀ acc : Nat,
    List.foldl (fun a c => a * 16 + hexCharVal c) acc ((ds.map Nat.digitChar).reverse)
      = acc * 16 ^ ds.length + Nat.ofDigits 16 ds
  | [], _, acc => by simp
  | d :: tl, hds, acc => by
      have hd : d < 16 := hds d (by simp)
      have htl : ∀ x ∈ tl, x < 16 := fun x hx => hds x (by simp [hx])
      have ih := foldl_hex_digits tl htl acc
      simp only [List.map_cons, List.reverse_cons, List.foldl_append, List.foldl_cons,
        List.foldl_nil]
      rw [ih, hexCharVal_digitChar d hd, Nat.ofDigits_cons]
      simp only [List.length_cons, pow_succ]
      ring

/-- C8: for every mask below `2 ^ 64`, the CSV mask field is exactly 18
characters — the prefix `0x` followed by 16 lowercase hexadecimal digits
whose value, zero-padding included, is the mask itself. -/
theorem mask_field_format (m : Nat) (hm : m < 2 ^ 64) :
    (mask_field m).length = 18 ∧
    (mask_field m).toList.take 2 = ['0', 'x'] ∧
    ((mask_field m).toList.drop 2).length = 16 ∧
    (∀ c ∈ (mask_field m).toList.drop 2, isLowerHexDigit c = true) ∧
    hexValue ((mask_field m).toList.drop 2) = m := by
  have hd16 : (hexDigits m).length ≤ 16 := by
    simp only [hexDigits, List.length_reverse, List.length_map]
    exact digits16_len_le m hm
  refine ⟨?_, rfl, ?_, ?_, ?_⟩
  · show ('0' :: 'x' :: (List.replicate (16 - (hexDigits m).length) '0' ++ hexDigits m)).length = 18
    simp only [List.length_cons, List.length_append, List.length_replicate]
    omega
  · show (List.replicate (16 - (hexDigits m).length) '0' ++ hexDigits m).length = 16
    simp only [List.length_append, List.length_replicate]
    omega
  · show ∀ c ∈ List.replicate (16 - (hexDigits m).length) '0' ++ hexDigits m,
      isLowerHexDigit c = true
    intro c hc
    rcases List.mem_append.mp hc with h | h
    · rw [List.eq_of_mem_replicate h]
      decide
    · simp only [hexDigits, List.mem_reverse, List.mem_map] at h
      obtain ⟨d, hd, rfl⟩ := h
      exact digitChar_hex d (Nat.digits_lt_base (by norm_num) hd)
  · show hexValue (List.replicate (16 - (hexDigits m).length) '0' ++ hexDigits m) = m
    rw [hexValue, List.foldl_append, foldl_hex_replicate]
    have h := foldl_hex_digits (Nat.digits 16 m)
      (fun d hd => Nat.digits_lt_base (by norm_num) hd) 0
    rw [hexDigits, h, Nat.ofDigits_digits]
    ring

/-- Witness for `mask_field_format` at mask `0x00A8`. -/
theorem mask_field_format_witness :
    (mask_field 0x00A8).length = 18 ∧
    (mask_field 0x00A8).toList.take 2 = ['0', 'x'] ∧
    ((mask_field 0x00A8).toList.drop 2).length = 16 ∧
    (∀ c ∈ (mask_field 0x00A8).toList.drop 2, isLowerHexDigit c = true) ∧
    hexValue ((mask_field 0x00A8).toList.drop 2) = 0x00A8 :=
  mask_field_format 0x00A8 (by decide)

end NVMonitor
